import Mathlib

/-!
Verification of the Blender headless worker (`blender_worker.py`): a shallow
embedding of the environment state machine (`SimpleBlenderEnv`), the per-request
connection handler (`TCPServer.handle_client`) and the accept loop
(`TCPServer.start`).  The external Scene Engine (the `bpy` API) is modelled as a
record of opaque-to-us total functions, exactly the capability interface the
worker invokes; everything the worker itself computes is embedded from the
source.  Real arithmetic is modelled with ℚ.
-/

namespace BlenderWorker

/-- JSON values as produced by `json.loads` on one request line.  Numbers are
modelled as rationals (covering both JSON integers and decimals). -/
inductive JVal where
  | null
  | bool (b : Bool)
  | num (q : ℚ)
  | str (s : String)
  | arr (xs : List JVal)
  | obj (kvs : List (String × JVal))

/-- Object type tag: the worker filters `bpy.data.objects` on `o.type == 'MESH'`. -/
inductive ObjType where
  | MESH
  | OTHER
deriving DecidableEq

/-- One scene object, carrying exactly the attributes `blender_worker.py` reads
or writes: `len(o.data.polygons)`, `o.bound_box[0]`, `o.dimensions.{x,y,z}`,
`o.location.x` and whether `o.data.uv_layers` is nonempty. -/
structure SceneObj where
  otype : ObjType
  polygons : Nat
  bound0x : ℚ
  bound0y : ℚ
  bound0z : ℚ
  dimx : ℚ
  dimy : ℚ
  dimz : ℚ
  locx : ℚ
  hasUV : Bool

/-- The scene: the current contents of `bpy.data.objects`. -/
abbrev Scene := List SceneObj

/-- The Scene Engine capability interface consumed by the worker (spec §6):
`bpy` operations whose internal semantics are external to this repository.
`baseline` is `read_factory_settings(use_empty=True)` followed by the optional
USD import when a path is configured; the per-object mutators absorb the
worker's per-object `try/except` (a caught failure is just whatever object
state results). -/
structure SceneEngine where
  baseline : Option String → Scene
  decimate : SceneObj → SceneObj
  removeDoubles : SceneObj → SceneObj
  uvProject : SceneObj → SceneObj
  exportScene : JVal → Except String Unit

/-- The mesh objects of the scene, in enumeration order:
`[o for o in bpy.data.objects if o.type == 'MESH']`. -/
def meshObjs (scene : Scene) : List SceneObj :=
  scene.filter fun o => o.otype = ObjType.MESH

/-- The observation dictionary built by `SimpleBlenderEnv._get_obs`. -/
structure Observation where
  n_objs : Nat
  n_tris : Nat
  bbox0 : List ℚ
  dims : List ℚ
deriving DecidableEq

/-- `(o.dimensions.x, o.dimensions.y, o.dimensions.z)` as contributed to `dims`. -/
def extents (o : SceneObj) : List ℚ :=
  [o.dimx, o.dimy, o.dimz]

/-- `SimpleBlenderEnv._get_obs`: count mesh objects, sum their polygon counts,
take the first object's bounding-box corner (zero vector if none), and build
`dims` from the first five objects' extents, zero-padded (the `while` loop)
then truncated (`dims[:15]`) to length 15. -/
def get_obs (scene : Scene) : Observation :=
  let objs := meshObjs scene
  let tris := (objs.map (·.polygons)).sum
  let bbox0 := match objs with
    | [] => [0, 0, 0]
    | o :: _ => [o.bound0x, o.bound0y, o.bound0z]
  let dims0 := ((objs.take 5).map extents).flatten
  let dims := (dims0 ++ List.replicate (15 - dims0.length) 0).take 15
  { n_objs := objs.length, n_tris := tris, bbox0 := bbox0, dims := dims }

/-- `SimpleBlenderEnv._compute_reward`:
`r = -0.001 * obs["n_tris"]; r += -0.01 * max(0, obs["n_objs"] - 6)`. -/
def compute_reward (obs : Observation) : ℚ :=
  -(1/1000) * (obs.n_tris : ℚ) + -(1/100) * ((max 0 ((obs.n_objs : ℤ) - 6) : ℤ) : ℚ)

/-- The environment state: the fields set in `SimpleBlenderEnv.__init__`
together with the process-wide mutable scene the methods act on. -/
structure Env where
  usd_path : Option String
  step_count : Nat
  max_steps : Nat
  scene : Scene

/-- `SimpleBlenderEnv.__init__(usd_path)` with the ambient scene state:
`step_count = 0`, `max_steps = 50`. -/
def mkEnv (usd : Option String) (scene : Scene) : Env :=
  { usd_path := usd, step_count := 0, max_steps := 50, scene := scene }

/-- `SimpleBlenderEnv.reset`: reinitialize the scene to the deterministic
baseline for the configured asset path, zero `step_count`, return the fresh
observation. -/
def reset (E : SceneEngine) (e : Env) : Env × Observation :=
  let scene := E.baseline e.usd_path
  ({ e with scene := scene, step_count := 0 }, get_obs scene)

/-- Apply `f` to every mesh object of the scene (the worker's
`for o in objs:` loops over the mesh-filtered list, mutating in place). -/
def mapMesh (f : SceneObj → SceneObj) (scene : Scene) : Scene :=
  scene.map fun o => if o.otype = ObjType.MESH then f o else o

/-- Action 3: lay mesh objects out along the X axis.  Each mesh object's
`location.x` is set to the running offset, which then advances by
`(o.dimensions.x if o.dimensions.x > 0 else 1.0) * 1.3`. -/
def layoutX (x : ℚ) : Scene → Scene
  | [] => []
  | o :: rest =>
    if o.otype = ObjType.MESH then
      { o with locx := x } ::
        layoutX (x + (if 0 < o.dimx then o.dimx else 1) * (13/10)) rest
    else
      o :: layoutX x rest

/-- The action dispatch of `SimpleBlenderEnv.step`: 0 decimates every mesh
object, 1 merges near-duplicate vertices, 2 UV-projects only objects without
existing UV layers, 3 lays objects out along X, and every other integer is a
no-op. -/
def applyAction (E : SceneEngine) (action : ℤ) (scene : Scene) : Scene :=
  if action = 0 then mapMesh E.decimate scene
  else if action = 1 then mapMesh E.removeDoubles scene
  else if action = 2 then mapMesh (fun o => if o.hasUV then o else E.uvProject o) scene
  else if action = 3 then layoutX 0 scene
  else scene

/-- The `(obs, reward, done, info)` tuple returned by `SimpleBlenderEnv.step`. -/
structure StepResult where
  obs : Observation
  reward : ℚ
  done : Bool
  info : List (String × JVal)

/-- `SimpleBlenderEnv.step(action)`: dispatch the mutation, increment
`step_count`, recompute the observation and reward,
`done = step_count >= max_steps`, empty `info`. -/
def step (E : SceneEngine) (e : Env) (action : ℤ) : Env × StepResult :=
  let scene := applyAction E action e.scene
  let sc := e.step_count + 1
  let obs := get_obs scene
  ({ e with scene := scene, step_count := sc },
   { obs := obs
     reward := compute_reward obs
     done := decide (e.max_steps ≤ sc)
     info := [] })

/-- Iterated `step`, keeping only the environment state (`runSteps` of the
actions list, left to right). -/
def runSteps (E : SceneEngine) (e : Env) (acts : List ℤ) : Env :=
  acts.foldl (fun e a => (step E e a).1) e

/-- `dict.get(k)` on the dictionary `json.loads` builds from an object literal:
a later duplicate key overrides an earlier one, absence gives `None`. -/
def jGet (kvs : List (String × JVal)) (k : String) : Option JVal :=
  (kvs.reverse.find? fun p => p.1 = k).map (·.2)

/-- `dict.get(k, d)` with a default. -/
def jGetD (kvs : List (String × JVal)) (k : String) (d : JVal) : JVal :=
  (jGet kvs k).getD d

/-- `data.get("cmd") == "<name>"` is true only when the field is that very
string; this extracts the string when there is one. -/
def cmdStr : Option JVal → Option String
  | some (JVal.str s) => some s
  | _ => none

/-- Python truthiness of `data.get("path")` (`if path:`). -/
def truthy : Option JVal → Bool
  | none => false
  | some JVal.null => false
  | some (JVal.bool b) => b
  | some (JVal.num q) => decide (q ≠ 0)
  | some (JVal.str s) => decide (s ≠ "")
  | some (JVal.arr xs) => !xs.isEmpty
  | some (JVal.obj kvs) => !kvs.isEmpty

/-- Truncation toward zero, as Python `int()` applied to a float. -/
def ratTrunc (q : ℚ) : ℤ :=
  q.num.tdiv (q.den : ℤ)

/-- A nonempty all-digit character list read as a decimal number. -/
def digitsToNat : List Char → Option ℕ
  | [] => none
  | cs =>
    if cs.all Char.isDigit then
      some (cs.foldl (fun n c => 10 * n + (c.toNat - 48)) 0)
    else
      none

/-- Python `int()` on a string: surrounding spaces stripped, an optional sign,
then decimal digits; anything else raises (modelled on the plain decimal
fragment the protocol can carry). -/
def strToInt : String → Option ℤ
  | s =>
    match (s.toList.dropWhile (· = ' ')).reverse.dropWhile (· = ' ') |>.reverse with
    | '-' :: rest => (digitsToNat rest).map fun n => -(n : ℤ)
    | '+' :: rest => (digitsToNat rest).map fun n => (n : ℤ)
    | cs => (digitsToNat cs).map fun n => (n : ℤ)

/-- Python `int()` on a JSON value: numbers truncate toward zero, booleans map
to 0/1, strings parse as decimal integers; everything else raises (`none`). -/
def pyInt : JVal → Option ℤ
  | JVal.bool b => some (if b then 1 else 0)
  | JVal.num q => some (ratTrunc q)
  | JVal.str s => strToInt s
  | _ => none

/-- One reply line written by `TCPServer.handle_client`. -/
inductive Response where
  | resetR (obs : Observation)
  | stepR (r : StepResult)
  | pong
  | savedOk (path : JVal)
  | savedErr (msg : String)
  | closedR
  | unknownCmd

/-- One request of `TCPServer.handle_client`: given the decoded JSON value of a
line, produce the next environment state, the reply written, and whether the
session continues — or `none` when an uncaught exception aborts the session
before any reply is written (`data.get` on a non-object, or `int()` raising on
the `step` action field). -/
def handleRequest (E : SceneEngine) (e : Env) (data : JVal) :
    Option (Env × Response × Bool) :=
  match data with
  | JVal.obj kvs =>
    match cmdStr (jGet kvs "cmd") with
    | some "reset" =>
      some ((reset E e).1, Response.resetR (reset E e).2, true)
    | some "step" =>
      match pyInt (jGetD kvs "action" (JVal.num 0)) with
      | none => none
      | some a =>
        some ((step E e a).1, Response.stepR (step E e a).2, true)
    | some "ping" => some (e, Response.pong, true)
    | some "save" =>
      let path := jGet kvs "path"
      if truthy path then
        match E.exportScene (path.getD JVal.null) with
        | Except.ok _ => some (e, Response.savedOk (path.getD JVal.null), true)
        | Except.error m => some (e, Response.savedErr m, true)
      else
        some (e, Response.savedErr "no path", true)
    | some "close" => some (e, Response.closedR, false)
    | _ => some (e, Response.unknownCmd, true)
  | _ => none

/-- One line as the handler's read-and-decode step sees it: either valid JSON
or a line `json.loads` rejects. -/
inductive Line where
  | malformed
  | json (v : JVal)

/-- The `handle_client` loop over the session's remaining lines: an exhausted
input is the peer closing the transport, a malformed line logs and breaks with
no reply, an uncaught exception (`none` from `handleRequest`) aborts with no
reply, and otherwise the reply is written and the loop continues unless the
command closed the session. -/
def runSession (E : SceneEngine) : Env → List Line → Env × List Response
  | e, [] => (e, [])
  | e, Line.malformed :: _ => (e, [])
  | e, Line.json v :: rest =>
    match handleRequest E e v with
    | none => (e, [])
    | some (e', r, cont) =>
      if cont then
        let p := runSession E e' rest
        (p.1, r :: p.2)
      else
        (e', [r])

/-- The `TCPServer.start` accept loop over a sequence of connections: each
connection's session runs to completion (its exceptions caught and logged, its
socket closed), then the next connection is accepted against the resulting
state. -/
def runServer (E : SceneEngine) : Env → List (List Line) → Env × List (List Response)
  | e, [] => (e, [])
  | e, conn :: rest =>
    let p := runSession E e conn
    let q := runServer E p.1 rest
    (q.1, p.2 :: q.2)

/-- A trivial Scene Engine instance: empty baseline, identity mutators,
always-succeeding export.  Used only to evaluate the worker's own logic on
concrete inputs. -/
def trivEngine : SceneEngine :=
  { baseline := fun _ => []
    decimate := id
    removeDoubles := id
    uvProject := id
    exportScene := fun _ => Except.ok () }

/-- A freshly initialized environment with no asset and an empty scene. -/
def env0 : Env :=
  mkEnv none []

/-! ## Helper lemmas -/

theorem runSteps_nil (E : SceneEngine) (e : Env) : runSteps E e [] = e :=
  rfl

theorem runSteps_cons (E : SceneEngine) (e : Env) (a : ℤ) (acts : List ℤ) :
    runSteps E e (a :: acts) = runSteps E (step E e a).1 acts :=
  rfl

theorem runSteps_step_count (E : SceneEngine) (acts : List ℤ) (e : Env) :
    (runSteps E e acts).step_count = e.step_count + acts.length := by
  induction acts generalizing e with
  | nil => simp [runSteps_nil]
  | cons a acts ih =>
    rw [runSteps_cons, ih]
    simp [step]
    omega

theorem runSteps_max_steps (E : SceneEngine) (acts : List ℤ) (e : Env) :
    (runSteps E e acts).max_steps = e.max_steps := by
  induction acts generalizing e with
  | nil => rfl
  | cons a acts ih =>
    rw [runSteps_cons, ih]
    rfl

theorem runSteps_usd_path (E : SceneEngine) (acts : List ℤ) (e : Env) :
    (runSteps E e acts).usd_path = e.usd_path := by
  induction acts generalizing e with
  | nil => rfl
  | cons a acts ih =>
    rw [runSteps_cons, ih]
    rfl

theorem dims_pad_length (l : List ℚ) :
    ((l ++ List.replicate (15 - l.length) 0).take 15).length = 15 := by
  simp only [List.length_take, List.length_append, List.length_replicate]
  omega

/-! ## Claim theorems -/

/-- C2: the computed reward equals exactly
`-0.001 * n_tris - 0.01 * max(0, n_objs - 6)`, it depends only on the
observation's `n_tris` and `n_objs` fields (it is a pure function of them,
with no side effects), `reward(n_tris=0, n_objs=0) = 0` and
`reward(n_tris=1000, n_objs=10) = -1.04`. -/
theorem c2_reward_formula :
    (∀ obs : Observation,
      compute_reward obs
        = -(1/1000 : ℚ) * (obs.n_tris : ℚ) - (1/100) * max 0 ((obs.n_objs : ℚ) - 6))
    ∧ (∀ o o' : Observation, o.n_tris = o'.n_tris → o.n_objs = o'.n_objs →
        compute_reward o = compute_reward o')
    ∧ compute_reward (Observation.mk 0 0 [0, 0, 0] (List.replicate 15 0)) = 0
    ∧ compute_reward (Observation.mk 10 1000 [0, 0, 0] (List.replicate 15 0))
        = -(104/100 : ℚ) := by
  refine ⟨?_, ?_, ?_, ?_⟩
  · intro obs
    unfold compute_reward
    push_cast
    ring
  · intro o o' ht ho
    unfold compute_reward
    rw [ht, ho]
  · simp only [compute_reward]
    norm_num [max_def]
  · simp only [compute_reward]
    norm_num [max_def]

/-- C2 witness: the dependence-only-on-`n_tris`/`n_objs` part of the theorem
applied at concrete observations differing in the other fields. -/
theorem c2_reward_formula_witness :
    compute_reward (Observation.mk 3 7 [] [])
      = compute_reward (Observation.mk 3 7 [0] [1]) :=
  c2_reward_formula.2.1 (Observation.mk 3 7 [] []) (Observation.mk 3 7 [0] [1]) rfl rfl

/-- C3: for every scene population, the observation built by `_get_obs` — and
thus the observation returned by `reset` and by `step` — has a `dims` field of
length exactly 15, namely the concatenated extents of the first (up to) five
mesh objects, zero-padded then truncated to 15 entries. -/
theorem c3_dims_length (E : SceneEngine) (e : Env) (a : ℤ) (scene : Scene) :
    (get_obs scene).dims.length = 15
    ∧ (get_obs scene).dims
        = ((((meshObjs scene).take 5).map extents).flatten
            ++ List.replicate
                (15 - ((((meshObjs scene).take 5).map extents).flatten).length) 0).take 15
    ∧ ((reset E e).2).dims.length = 15
    ∧ ((step E e a).2.obs).dims.length = 15 :=
  ⟨dims_pad_length _, rfl, dims_pad_length _, dims_pad_length _⟩

/-- C10: the reward is never positive; it is zero exactly when `n_tris = 0` and
`n_objs ≤ 6`; and it is monotonically non-increasing in both `n_tris` and
`n_objs`. -/
theorem c10_reward_sign (o o' : Observation)
    (ht : o.n_tris ≤ o'.n_tris) (ho : o.n_objs ≤ o'.n_objs) :
    compute_reward o ≤ 0
    ∧ (compute_reward o = 0 ↔ o.n_tris = 0 ∧ o.n_objs ≤ 6)
    ∧ compute_reward o' ≤ compute_reward o := by
  have hT : (0 : ℚ) ≤ (o.n_tris : ℚ) := Nat.cast_nonneg _
  have hT' : (o.n_tris : ℚ) ≤ (o'.n_tris : ℚ) := by exact_mod_cast ht
  have hMz : (0 : ℤ) ≤ max 0 ((o.n_objs : ℤ) - 6) := le_max_left _ _
  have hM : (0 : ℚ) ≤ ((max 0 ((o.n_objs : ℤ) - 6) : ℤ) : ℚ) := by exact_mod_cast hMz
  have hMle : max 0 ((o.n_objs : ℤ) - 6) ≤ max 0 ((o'.n_objs : ℤ) - 6) :=
    max_le_max le_rfl (by omega)
  have hM' : ((max 0 ((o.n_objs : ℤ) - 6) : ℤ) : ℚ)
      ≤ ((max 0 ((o'.n_objs : ℤ) - 6) : ℤ) : ℚ) := by exact_mod_cast hMle
  refine ⟨?_, ?_, ?_⟩
  · unfold compute_reward
    nlinarith
  · unfold compute_reward
    constructor
    · intro h
      have h1 : (o.n_tris : ℚ) = 0 := by nlinarith
      have h2 : ((max 0 ((o.n_objs : ℤ) - 6) : ℤ) : ℚ) = 0 := by nlinarith
      have h2' : max 0 ((o.n_objs : ℤ) - 6) = 0 := by exact_mod_cast h2
      refine ⟨by exact_mod_cast h1, ?_⟩
      omega
    · rintro ⟨h1, h2⟩
      have hmax : max 0 ((o.n_objs : ℤ) - 6) = 0 := by omega
      rw [h1, hmax]
      norm_num
  · unfold compute_reward
    nlinarith

/-- C10 witness: the theorem applied at two concrete observations. -/
theorem c10_reward_sign_witness :
    compute_reward (Observation.mk 0 0 [] []) ≤ 0
    ∧ (compute_reward (Observation.mk 0 0 [] []) = 0
        ↔ (Observation.mk 0 0 [] []).n_tris = 0 ∧ (Observation.mk 0 0 [] []).n_objs ≤ 6)
    ∧ compute_reward (Observation.mk 10 1000 [] [])
        ≤ compute_reward (Observation.mk 0 0 [] []) :=
  c10_reward_sign (Observation.mk 0 0 [] []) (Observation.mk 10 1000 [] [])
    (by decide) (by decide)

/-- C4: starting from a freshly constructed and reset environment, after `N`
consecutive `step` calls `step_count = N`, and the `done` flag returned by the
next `step` call is true exactly when the resulting `step_count` (that is,
`N + 1`) has reached 50; in particular it stays true on every further step
until the next `reset`. -/
theorem c4_step_count_done (E : SceneEngine) (usd : Option String) (s0 : Scene)
    (acts : List ℤ) (a : ℤ) :
    (runSteps E (reset E (mkEnv usd s0)).1 acts).step_count = acts.length
    ∧ ((step E (runSteps E (reset E (mkEnv usd s0)).1 acts) a).2.done
        = decide (50 ≤ acts.length + 1)) := by
  have h1 : (reset E (mkEnv usd s0)).1.step_count = 0 := rfl
  have h2 : (reset E (mkEnv usd s0)).1.max_steps = 50 := rfl
  constructor
  · rw [runSteps_step_count, h1]
    omega
  · simp [step, runSteps_step_count, runSteps_max_steps, h1, h2]

/-- C5: for every action outside `{0,1,2,3}`, `step` leaves the scene
untouched, still increments `step_count` by 1, and returns the observation of
the unchanged scene together with its reward, the termination flag, and an
empty `info`. -/
theorem c5_noop_action (E : SceneEngine) (e : Env) (a : ℤ)
    (h : ¬(a = 0 ∨ a = 1 ∨ a = 2 ∨ a = 3)) :
    (step E e a).1.scene = e.scene
    ∧ (step E e a).1.step_count = e.step_count + 1
    ∧ (step E e a).2.obs = get_obs e.scene
    ∧ (step E e a).2.reward = compute_reward (get_obs e.scene)
    ∧ (step E e a).2.done = decide (e.max_steps ≤ e.step_count + 1)
    ∧ (step E e a).2.info = [] := by
  push_neg at h
  obtain ⟨h0, h1, h2, h3⟩ := h
  simp [step, applyAction, h0, h1, h2, h3]

/-- C5 witness: the theorem applied at `action = 99` on a fresh environment. -/
theorem c5_noop_action_witness :
    (step trivEngine env0 99).1.scene = env0.scene
    ∧ (step trivEngine env0 99).1.step_count = env0.step_count + 1
    ∧ (step trivEngine env0 99).2.obs = get_obs env0.scene
    ∧ (step trivEngine env0 99).2.reward = compute_reward (get_obs env0.scene)
    ∧ (step trivEngine env0 99).2.done = decide (env0.max_steps ≤ env0.step_count + 1)
    ∧ (step trivEngine env0 99).2.info = [] :=
  c5_noop_action trivEngine env0 99 (by decide)

/-- C7: a `ping` request, in every session state, is answered with the pong
reply, keeps the session open and returns the environment — `step_count`,
`max_steps`, configured path and scene — entirely unchanged. -/
theorem c7_ping_pure (E : SceneEngine) (e : Env) (kvs : List (String × JVal))
    (h : jGet kvs "cmd" = some (JVal.str "ping")) :
    handleRequest E e (JVal.obj kvs) = some (e, Response.pong, true) := by
  simp only [handleRequest, h, cmdStr]

/-- C7 witness: the theorem applied to the literal ping request. -/
theorem c7_ping_pure_witness :
    handleRequest trivEngine env0 (JVal.obj [("cmd", JVal.str "ping")])
      = some (env0, Response.pong, true) :=
  c7_ping_pure trivEngine env0 [("cmd", JVal.str "ping")] rfl

/-- C8: `reset` is idempotent — a second `reset`, with any number of steps in
between, returns the same baseline observation as the first, zeroes
`step_count`, and reinstalls the engine baseline for the configured asset
path. -/
theorem c8_reset_idempotent (E : SceneEngine) (e : Env) (acts : List ℤ) :
    (reset E ((reset E e).1)).2 = (reset E e).2
    ∧ (reset E (runSteps E (reset E e).1 acts)).2 = (reset E e).2
    ∧ (reset E (runSteps E (reset E e).1 acts)).1.step_count = 0
    ∧ (reset E (runSteps E (reset E e).1 acts)).1.scene = E.baseline e.usd_path := by
  have hu : ∀ x : Env, (runSteps E x acts).usd_path = x.usd_path :=
    runSteps_usd_path E acts
  refine ⟨rfl, ?_, rfl, ?_⟩ <;> simp [reset, hu]

/-- C1 counterexample: the valid JSON line
`{"cmd": "step", "action": "abc"}` makes the handler's `int()` conversion
raise before any reply is written, so the request terminates with no
structured response — refuting the claim as stated. -/
theorem c1_counterexample :
    handleRequest trivEngine env0
      (JVal.obj [("cmd", JVal.str "step"), ("action", JVal.str "abc")]) = none :=
  rfl

/-- C1 (amended): for every valid-JSON request that is an object whose `step`
action field (when the command is `step`) is `int()`-convertible, the handler
produces a structured reply; the unguarded conversion of the action field is
the one command path that can abort a request without a response. -/
theorem c1_structured_reply (E : SceneEngine) (e : Env) (kvs : List (String × JVal))
    (h : cmdStr (jGet kvs "cmd") = some "step" →
         (pyInt (jGetD kvs "action" (JVal.num 0))).isSome) :
    (handleRequest E e (JVal.obj kvs)).isSome := by
  simp only [handleRequest]
  split
  · simp
  · rename_i hstep
    split
    · rename_i hnone
      have hsome := h hstep
      rw [hnone] at hsome
      simp at hsome
    · simp
  · simp
  · split
    · split <;> simp
    · simp
  · simp
  · simp

/-- C1 witness: the amended theorem applied to a concrete well-formed `step`
request. -/
theorem c1_structured_reply_witness :
    (handleRequest trivEngine env0
      (JVal.obj [("cmd", JVal.str "step"), ("action", JVal.num 2)])).isSome :=
  c1_structured_reply trivEngine env0 [("cmd", JVal.str "step"), ("action", JVal.num 2)]
    (fun _ => by decide)

/-- C6: a malformed (non-JSON) line ends that session only: the handler writes
no reply for it and leaves the environment unchanged; a reply-producing
request before it is still answered; and the listener then serves any
subsequent connections exactly as it would have without the failed session. -/
theorem c6_malformed_line (E : SceneEngine) (e : Env) (more : List Line)
    (rest : List (List Line)) :
    runSession E e (Line.malformed :: more) = (e, [])
    ∧ runSession E e
        (Line.json (JVal.obj [("cmd", JVal.str "ping")]) :: Line.malformed :: more)
        = (e, [Response.pong])
    ∧ runServer E e ((Line.malformed :: more) :: rest)
        = ((runServer E e rest).1, [] :: (runServer E e rest).2) :=
  ⟨rfl, rfl, rfl⟩

/-- C9: the handler coerces the `step` action with Python `int()` — the JSON
number 2.9 truncates to 2 and dispatches exactly as `action = 2` would, while
the non-convertible string "abc" raises before any reply is written, ending
the session with no response to the request. -/
theorem c9_action_coercion (E : SceneEngine) (e : Env) :
    pyInt (JVal.num (29/10)) = some 2
    ∧ handleRequest E e (JVal.obj [("cmd", JVal.str "step"), ("action", JVal.num (29/10))])
        = some ((step E e 2).1, Response.stepR (step E e 2).2, true)
    ∧ handleRequest E e (JVal.obj [("cmd", JVal.str "step"), ("action", JVal.str "abc")])
        = none := by
  have hnum : ((29/10 : ℚ)).num = 29 := by norm_num
  have hden : ((29/10 : ℚ)).den = 10 := by norm_num
  have h1 : pyInt (JVal.num (29/10)) = some 2 := by
    simp only [pyInt, ratTrunc, hnum, hden]
    decide
  have h2 : handleRequest E e
        (JVal.obj [("cmd", JVal.str "step"), ("action", JVal.num (29/10))])
      = match pyInt (JVal.num (29/10)) with
        | none => none
        | some a => some ((step E e a).1, Response.stepR (step E e a).2, true) := rfl
  refine ⟨h1, ?_, rfl⟩
  rw [h2, h1]

end BlenderWorker
